import Mathlib

/-!
Verification of the driver function `get_aurora_brightnesses` in
`khan/analysis/processing.py`.

The repository source under scrutiny is the orchestration loop (lines 16 to
94 of `processing.py`).  The collaborators it calls — the classes
`OrderData`, `Background` and `AuroraBrightness` from
`khan.analysis.brightness_retrieval`, the two quality-assurance renderers
from `khan.analysis.quality_assurance`, and the wavelength tables
`aurora_line_wavelengths` / `emission_line_strengths` from `khan.common`
— live in modules that are not part of the visible source.  They are
therefore modelled as an environment (`Env`) that, for each loop index and
each call site, either succeeds or raises a Python exception, and as value
records (`OrderDataV`, `BackgroundV`, `AuroraBrightnessV`) that capture
exactly the arguments the driver passes at each call site.

The driver itself is translated statement by statement: the
`warnings.catch_warnings` / `simplefilter("ignore")` context, the loop over
`range(len(wavelengths))`, the six calls of the `try` block in their source
order, the single `except ValueError` handler with its `print` and
`continue`, and the implicit `return None`.  A run is summarised by the
ordered list of observable events it produces, the warnings it lets
through, the returned value and the uncaught exception (if any).
-/

namespace KhanProcessing

/-- Python exception value as classified by the driver.  The driver at
line 92 of `processing.py` catches by exception class (`except ValueError`),
so the model records the class.  The Boolean flag of `valueError` records
whether this particular `ValueError` instance is the wavelength-not-found
condition (the spec name `LineNotFound`); Python code can raise `ValueError`
for entirely different reasons, which the `except ValueError` clause cannot
tell apart.  `degenerateAggregate` is the distinct all-frames-excluded
condition of the spec; `otherError` stands for any exception class that is
not a `ValueError` (indexed by an arbitrary code so that distinct foreign
failures stay distinct). -/
inductive PyExc where
  | valueError (isLineNotFound : Bool)
  | degenerateAggregate
  | otherError (code : Nat)
deriving DecidableEq

/-- Whether an exception is of Python class `ValueError`: this is the
exact test performed by `except ValueError` at line 92. -/
def isValueError : PyExc → Bool
  | .valueError _ => true
  | _ => false

/-- The parameter list of `get_aurora_brightnesses` (processing.py lines
16 to 23) together with the default values that appear in the source:
`seeing=1`, `exclude=None`, `y_offset=0`, `top_trim=2`, `bottom_trim=2`,
`additional_wavelengths=False`.  The exclusion mapping is a dictionary
from wavelength-key strings to lists of zero-based frame indices. -/
structure Params where
  reduced_data_path : String
  save_path : String
  seeing : ℚ := 1
  exclude : Option (List (String × List Nat)) := none
  y_offset : Int := 0
  top_trim : Int := 2
  bottom_trim : Int := 2
  additional_wavelengths : Bool := false
deriving DecidableEq

/-- Value recording a successful `OrderData` construction, i.e. the
arguments of the call at lines 74 to 80 of `processing.py` plus the loop
index of the wavelength group it belongs to.  The class itself lives in
`khan.analysis.brightness_retrieval`, outside the visible source. -/
structure OrderDataV where
  group : Nat
  reduced_data_path : String
  wavelengths : List ℚ
  emission_line_strengths : List ℚ
  seeing : ℚ
  exclude : Option (List (String × List Nat))
  top_trim : Int
  bottom_trim : Int
deriving DecidableEq

/-- Value recording a successful `Background` construction: the call at
lines 81 to 82 receives the order data of the current group and the
`y_offset` parameter. -/
structure BackgroundV where
  order_data : OrderDataV
  y_offset : Int
deriving DecidableEq

/-- Value recording a successful `AuroraBrightness` construction: the call
at lines 83 to 85 receives the order data, the background and the save
path. -/
structure AuroraBrightnessV where
  order_data : OrderDataV
  background : BackgroundV
  save_path : String
deriving DecidableEq

/-- Observable events of one run of the driver, in the order they occur:
the four effectful call sites of the `try` block, the two pure
constructions that precede them, and the `print` of the `except` handler. -/
inductive Event where
  | constructedOrderData (od : OrderDataV)
  | constructedBackground (bg : BackgroundV)
  | constructedAuroraBrightness (ab : AuroraBrightnessV)
  | renderedBackgroundGraphic (od : OrderDataV) (bg : BackgroundV)
      (save_path : String) (y_offset : Int)
  | savedResults (ab : AuroraBrightnessV) (key : String)
  | renderedSpectrumGraphic (save_path : String) (od : OrderDataV)
  | printedLine (line : String)
deriving DecidableEq

/-- Environment modelling the collaborators that are outside the visible
source.  The two tables model `aurora_line_wavelengths` and
`emission_line_strengths` from `khan.common` (each wavelength group is a
list of rationals in nanometres; the argument is the `extended` flag).
For each loop index, each of the six call sites of the `try` block either
returns normally (`none`) or raises an exception (`some e`); `warns i`
lists the Python warnings raised while processing group `i`. -/
structure Env where
  aurora_line_wavelengths : Bool → List (List ℚ)
  emission_line_strengths : Bool → List (List ℚ)
  mkOrderDataExc : Nat → Option PyExc
  mkBackgroundExc : Nat → Option PyExc
  mkAuroraBrightnessExc : Nat → Option PyExc
  bgGraphicExc : Nat → Option PyExc
  saveResultsExc : Nat → Option PyExc
  spGraphicExc : Nat → Option PyExc
  warns : Nat → List String

/-- The `OrderData` value built for loop index `i` with wavelength group
`w` and emission-line strengths `s` (lines 74 to 80). -/
def odOf (p : Params) (i : Nat) (w s : List ℚ) : OrderDataV :=
  ⟨i, p.reduced_data_path, w, s, p.seeing, p.exclude, p.top_trim, p.bottom_trim⟩

/-- The `Background` value built for loop index `i` (lines 81 to 82). -/
def bgOf (p : Params) (i : Nat) (w s : List ℚ) : BackgroundV :=
  ⟨odOf p i w s, p.y_offset⟩

/-- The `AuroraBrightness` value built for loop index `i`
(lines 83 to 85). -/
def abOf (p : Params) (i : Nat) (w s : List ℚ) : AuroraBrightnessV :=
  ⟨odOf p i w s, bgOf p i w s, p.save_path⟩

/-- Arithmetic mean of a list of rationals, the model of
`wavelengths[i].mean()` at line 93. -/
def qmean (l : List ℚ) : ℚ := l.sum / l.length

/-- Round a rational to the nearest integer, ties to even — the rounding
performed by the Python format specifier `:.1f` (after scaling by ten). -/
def roundHalfEven (r : ℚ) : ℤ :=
  let f : ℤ := ⌊r⌋
  let frac : ℚ := r - f
  if frac < 1 / 2 then f
  else if 1 / 2 < frac then f + 1
  else if f % 2 = 0 then f else f + 1

/-- Decimal rendering of an integer number of tenths as `d.t`. -/
def tenthsToString (t : ℤ) : String :=
  if t < 0 then
    "-" ++ toString ((-t).toNat / 10) ++ "." ++ toString ((-t).toNat % 10)
  else
    toString (t.toNat / 10) ++ "." ++ toString (t.toNat % 10)

/-- Model of the Python format `f"{q:.1f}"`: the value rounded to one
decimal place. -/
def fmt1 (q : ℚ) : String := tenthsToString (roundHalfEven (q * 10))

/-- Modelled from the spec: the key under which `AuroraBrightness.save_results`
(a method of `khan.analysis.brightness_retrieval`, not under the visible
source) files the results record of a group — the mean target wavelength
rounded to one decimal place, the identifier the spec and the docstring use
for a wavelength group (for example `630.0`). -/
def saveKey (w : List ℚ) : String := fmt1 (qmean w)

/-- The exact line printed by the `except ValueError` handler at line 93:
the group mean wavelength formatted to one decimal place followed by the
not-found message. -/
def skipMessage (w : List ℚ) : String := fmt1 (qmean w) ++ " not found! Skipping..."

/-- The six events produced by a group whose whole `try` block runs
without raising, in source order (lines 74 to 91). -/
def sixEvents (p : Params) (i : Nat) (w s : List ℚ) : List Event :=
  [Event.constructedOrderData (odOf p i w s),
   Event.constructedBackground (bgOf p i w s),
   Event.constructedAuroraBrightness (abOf p i w s),
   Event.renderedBackgroundGraphic (odOf p i w s) (bgOf p i w s) p.save_path p.y_offset,
   Event.savedResults (abOf p i w s) (saveKey w),
   Event.renderedSpectrumGraphic p.save_path (odOf p i w s)]

/-- Result of running the `try` block of one wavelength group: the events
that happened before the block finished or raised, and the raised
exception if any. -/
structure GroupResult where
  events : List Event
  exc : Option PyExc
deriving DecidableEq

/-- The `try` block of one wavelength group (lines 73 to 91): the six
calls run in source order; the first one that raises ends the block with
that exception, and only the calls that returned normally have produced
their events. -/
def processGroup (env : Env) (p : Params) (i : Nat) (w s : List ℚ) : GroupResult :=
  match env.mkOrderDataExc i with
  | some e => ⟨[], some e⟩
  | none =>
    match env.mkBackgroundExc i with
    | some e => ⟨[Event.constructedOrderData (odOf p i w s)], some e⟩
    | none =>
      match env.mkAuroraBrightnessExc i with
      | some e =>
          ⟨[Event.constructedOrderData (odOf p i w s),
            Event.constructedBackground (bgOf p i w s)], some e⟩
      | none =>
        match env.bgGraphicExc i with
        | some e =>
            ⟨[Event.constructedOrderData (odOf p i w s),
              Event.constructedBackground (bgOf p i w s),
              Event.constructedAuroraBrightness (abOf p i w s)], some e⟩
        | none =>
          match env.saveResultsExc i with
          | some e =>
              ⟨[Event.constructedOrderData (odOf p i w s),
                Event.constructedBackground (bgOf p i w s),
                Event.constructedAuroraBrightness (abOf p i w s),
                Event.renderedBackgroundGraphic (odOf p i w s) (bgOf p i w s)
                  p.save_path p.y_offset], some e⟩
          | none =>
            match env.spGraphicExc i with
            | some e =>
                ⟨[Event.constructedOrderData (odOf p i w s),
                  Event.constructedBackground (bgOf p i w s),
                  Event.constructedAuroraBrightness (abOf p i w s),
                  Event.renderedBackgroundGraphic (odOf p i w s) (bgOf p i w s)
                    p.save_path p.y_offset,
                  Event.savedResults (abOf p i w s) (saveKey w)], some e⟩
            | none => ⟨sixEvents p i w s, none⟩

/-- Accumulated result of the loop over the wavelength groups: events,
raised warnings, and the uncaught exception (if the loop was aborted). -/
structure LoopResult where
  events : List Event
  warnsRaised : List String
  uncaught : Option PyExc
deriving DecidableEq

/-- The loop `for i in range(len(wavelengths))` (lines 72 to 94) over an
explicit list of (index, wavelength group) pairs.  A group whose `try`
block raises a `ValueError` — of any origin — is caught by the handler at
line 92, which prints the skip notice and continues; any other exception
aborts the loop and becomes the uncaught exception of the run. -/
def runLoop (env : Env) (p : Params) (ls : List (List ℚ)) :
    List (Nat × List ℚ) → LoopResult
  | [] => ⟨[], [], none⟩
  | (i, w) :: rest =>
    let g := processGroup env p i w (ls.getD i [])
    match g.exc with
    | none =>
      let r := runLoop env p ls rest
      ⟨g.events ++ r.events, env.warns i ++ r.warnsRaised, r.uncaught⟩
    | some e =>
      if isValueError e then
        let r := runLoop env p ls rest
        ⟨g.events ++ Event.printedLine (skipMessage w) :: r.events,
         env.warns i ++ r.warnsRaised, r.uncaught⟩
      else
        ⟨g.events, env.warns i, some e⟩

/-- The `warnings.catch_warnings()` context with
`warnings.simplefilter("ignore")` (lines 67 to 68): with the ignore-all
filter installed, none of the raised warnings is shown. -/
def runWithWarningsFilter (ignoreAll : Bool) (raised : List String) : List String :=
  if ignoreAll then [] else raised

/-- Everything a caller of `get_aurora_brightnesses` can observe about a
run: the events, the warnings actually shown, the returned value
(`some ()` models the Python return value `None`; `none` means the call
never returned because an exception escaped), and the escaped exception. -/
structure RunResult where
  events : List Event
  shownWarnings : List String
  retval : Option Unit
  uncaught : Option PyExc
deriving DecidableEq

/-- The driver `get_aurora_brightnesses` (lines 16 to 94): fetch the two
tables with the `additional_wavelengths` flag, run the loop over the
enumerated wavelength groups inside the ignore-all warnings context, and
return `None` (the function body has no `return` statement). -/
def get_aurora_brightnesses (env : Env) (p : Params) : RunResult :=
  let wavelengths := env.aurora_line_wavelengths p.additional_wavelengths
  let line_strengths := env.emission_line_strengths p.additional_wavelengths
  let r := runLoop env p line_strengths wavelengths.enum
  ⟨r.events, runWithWarningsFilter true r.warnsRaised,
   match r.uncaught with
   | none => some ()
   | some _ => none,
   r.uncaught⟩

/-- The wavelength table the driver iterates over. -/
def wavelengthTable (env : Env) (p : Params) : List (List ℚ) :=
  env.aurora_line_wavelengths p.additional_wavelengths

/-- The emission-line strength table the driver indexes into. -/
def strengthTable (env : Env) (p : Params) : List (List ℚ) :=
  env.emission_line_strengths p.additional_wavelengths

/-- A group whose `try` block does not abort the run: it either finishes or
raises a `ValueError`, which the handler catches. -/
def groupNoAbort (env : Env) (p : Params) (ls : List (List ℚ))
    (pr : Nat × List ℚ) : Prop :=
  ((processGroup env p pr.1 pr.2 (ls.getD pr.1 [])).exc.all isValueError) = true

instance (env : Env) (p : Params) (ls : List (List ℚ)) (pr : Nat × List ℚ) :
    Decidable (groupNoAbort env p ls pr) := by
  unfold groupNoAbort
  infer_instance

/-- The full event segment a group contributes to the run: its `try` block
events followed by the skip notice when a `ValueError` was caught. -/
def groupSegment (env : Env) (p : Params) (ls : List (List ℚ))
    (pr : Nat × List ℚ) : List Event :=
  let g := processGroup env p pr.1 pr.2 (ls.getD pr.1 [])
  g.events ++
    (match g.exc with
     | some e => if isValueError e then [Event.printedLine (skipMessage pr.2)] else []
     | none => [])

/-- Whether an event is a persisted results record. -/
def isSavedEvent : Event → Bool
  | .savedResults _ _ => true
  | _ => false

/-- Whether an event is one of the two diagnostic renderings. -/
def isRenderEvent : Event → Bool
  | .renderedBackgroundGraphic _ _ _ _ => true
  | .renderedSpectrumGraphic _ _ => true
  | _ => false

/-- The results record the driver persists for group `i` (line 89). -/
def savedEventOf (p : Params) (i : Nat) (w s : List ℚ) : Event :=
  Event.savedResults (abOf p i w s) (saveKey w)

/-- The two rendering events of group `i`, in call order (lines 86 to 88
and 90 to 91). -/
def renderEventsOf (p : Params) (i : Nat) (w s : List ℚ) : List Event :=
  [Event.renderedBackgroundGraphic (odOf p i w s) (bgOf p i w s) p.save_path p.y_offset,
   Event.renderedSpectrumGraphic p.save_path (odOf p i w s)]

/-- Modelled from the spec: the sequence-level aggregation step inside
`AuroraBrightness` (`khan.analysis.brightness_retrieval`, not under the
visible source).  Per-frame brightness values are averaged over the frames
whose index is not in the exclusion set; when the exclusion set names
every frame, the step raises the distinct `DegenerateAggregate` condition
instead of returning the mean of an empty collection. -/
def aggregateBrightness (perFrame : List ℚ) (excluded : List Nat) : Except PyExc ℚ :=
  let included :=
    ((List.range perFrame.length).filter (fun j => ! excluded.contains j)).map
      (fun j => perFrame.getD j 0)
  if included.length = 0 then Except.error PyExc.degenerateAggregate
  else Except.ok (included.sum / included.length)

/-- Test environment: two wavelength groups (630.0 nm and 777.4 nm), all
six call sites succeed for every group, and one warning is raised per
group. -/
def envOk : Env where
  aurora_line_wavelengths := fun _ => [[6300 / 10], [7774 / 10]]
  emission_line_strengths := fun _ => [[1], [1, 1, 1]]
  mkOrderDataExc := fun _ => none
  mkBackgroundExc := fun _ => none
  mkAuroraBrightnessExc := fun _ => none
  bgGraphicExc := fun _ => none
  saveResultsExc := fun _ => none
  spGraphicExc := fun _ => none
  warns := fun _ => ["overflow encountered in divide"]

/-- Test environment: the `OrderData` construction of group 0 raises the
wavelength-not-found `ValueError`; group 1 succeeds. -/
def envLnf : Env :=
  { envOk with mkOrderDataExc := fun i => if i = 0 then some (PyExc.valueError true) else none }

/-- Test environment: for group 0 everything succeeds up to and including
the background-subtraction graphic, and then `save_results` raises a
`ValueError` that is not the wavelength-not-found condition; group 1
succeeds. -/
def envSaveVE : Env :=
  { envOk with saveResultsExc := fun i => if i = 0 then some (PyExc.valueError false) else none }

/-- Test environment: the background-subtraction graphic of group 0 raises
a `ValueError` that is not the wavelength-not-found condition; group 1
succeeds. -/
def envBgVE : Env :=
  { envOk with bgGraphicExc := fun i => if i = 0 then some (PyExc.valueError false) else none }

/-- Test environment: the `Background` construction of group 0 raises an
exception that is not a `ValueError`. -/
def envAbort : Env :=
  { envOk with mkBackgroundExc := fun i => if i = 0 then some (PyExc.otherError 7) else none }

/-- Test parameters: required paths filled in, every optional parameter at
its source default. -/
def pDef : Params :=
  { reduced_data_path := "reduced", save_path := "save" }

/-- Unfolding: a failing `OrderData` construction ends the block at once. -/
theorem pg_fail1 (env : Env) (p : Params) (i : Nat) (w s : List ℚ) (e : PyExc)
    (h : env.mkOrderDataExc i = some e) :
    processGroup env p i w s = ⟨[], some e⟩ := by
  simp [processGroup, h]

/-- Unfolding: a failing `Background` construction ends the block after the
`OrderData` event. -/
theorem pg_fail2 (env : Env) (p : Params) (i : Nat) (w s : List ℚ) (e : PyExc)
    (h1 : env.mkOrderDataExc i = none) (h2 : env.mkBackgroundExc i = some e) :
    processGroup env p i w s = ⟨[Event.constructedOrderData (odOf p i w s)], some e⟩ := by
  simp [processGroup, h1, h2]

/-- Unfolding: a failing `AuroraBrightness` construction ends the block
after the first two events. -/
theorem pg_fail3 (env : Env) (p : Params) (i : Nat) (w s : List ℚ) (e : PyExc)
    (h1 : env.mkOrderDataExc i = none) (h2 : env.mkBackgroundExc i = none)
    (h3 : env.mkAuroraBrightnessExc i = some e) :
    processGroup env p i w s =
      ⟨[Event.constructedOrderData (odOf p i w s),
        Event.constructedBackground (bgOf p i w s)], some e⟩ := by
  simp [processGroup, h1, h2, h3]

/-- Unfolding: a failing background-subtraction graphic ends the block
after the three construction events. -/
theorem pg_fail4 (env : Env) (p : Params) (i : Nat) (w s : List ℚ) (e : PyExc)
    (h1 : env.mkOrderDataExc i = none) (h2 : env.mkBackgroundExc i = none)
    (h3 : env.mkAuroraBrightnessExc i = none) (h4 : env.bgGraphicExc i = some e) :
    processGroup env p i w s =
      ⟨[Event.constructedOrderData (odOf p i w s),
        Event.constructedBackground (bgOf p i w s),
        Event.constructedAuroraBrightness (abOf p i w s)], some e⟩ := by
  simp [processGroup, h1, h2, h3, h4]

/-- Unfolding: a failing `save_results` ends the block after the graphic
event, so no results record is persisted. -/
theorem pg_fail5 (env : Env) (p : Params) (i : Nat) (w s : List ℚ) (e : PyExc)
    (h1 : env.mkOrderDataExc i = none) (h2 : env.mkBackgroundExc i = none)
    (h3 : env.mkAuroraBrightnessExc i = none) (h4 : env.bgGraphicExc i = none)
    (h5 : env.saveResultsExc i = some e) :
    processGroup env p i w s =
      ⟨[Event.constructedOrderData (odOf p i w s),
        Event.constructedBackground (bgOf p i w s),
        Event.constructedAuroraBrightness (abOf p i w s),
        Event.renderedBackgroundGraphic (odOf p i w s) (bgOf p i w s)
          p.save_path p.y_offset], some e⟩ := by
  simp [processGroup, h1, h2, h3, h4, h5]

/-- Unfolding: a failing spectrum graphic ends the block after the results
record was persisted. -/
theorem pg_fail6 (env : Env) (p : Params) (i : Nat) (w s : List ℚ) (e : PyExc)
    (h1 : env.mkOrderDataExc i = none) (h2 : env.mkBackgroundExc i = none)
    (h3 : env.mkAuroraBrightnessExc i = none) (h4 : env.bgGraphicExc i = none)
    (h5 : env.saveResultsExc i = none) (h6 : env.spGraphicExc i = some e) :
    processGroup env p i w s =
      ⟨[Event.constructedOrderData (odOf p i w s),
        Event.constructedBackground (bgOf p i w s),
        Event.constructedAuroraBrightness (abOf p i w s),
        Event.renderedBackgroundGraphic (odOf p i w s) (bgOf p i w s)
          p.save_path p.y_offset,
        Event.savedResults (abOf p i w s) (saveKey w)], some e⟩ := by
  simp [processGroup, h1, h2, h3, h4, h5, h6]

/-- Unfolding: when every call site returns normally, the block produces
the six events in source order and raises nothing. -/
theorem pg_succ (env : Env) (p : Params) (i : Nat) (w s : List ℚ)
    (h1 : env.mkOrderDataExc i = none) (h2 : env.mkBackgroundExc i = none)
    (h3 : env.mkAuroraBrightnessExc i = none) (h4 : env.bgGraphicExc i = none)
    (h5 : env.saveResultsExc i = none) (h6 : env.spGraphicExc i = none) :
    processGroup env p i w s = ⟨sixEvents p i w s, none⟩ := by
  simp [processGroup, h1, h2, h3, h4, h5, h6]

/-- Shape of any group run: either the whole block succeeded, or the events
are a proper initial segment of the six-event list and an exception was
raised. -/
theorem pg_shape (env : Env) (p : Params) (i : Nat) (w s : List ℚ) :
    processGroup env p i w s = ⟨sixEvents p i w s, none⟩ ∨
    ∃ k e, k < 6 ∧ processGroup env p i w s = ⟨(sixEvents p i w s).take k, some e⟩ := by
  cases h1 : env.mkOrderDataExc i with
  | some e1 =>
    exact Or.inr ⟨0, e1, by omega, by rw [pg_fail1 env p i w s e1 h1]; simp⟩
  | none =>
    cases h2 : env.mkBackgroundExc i with
    | some e2 =>
      exact Or.inr ⟨1, e2, by omega, by rw [pg_fail2 env p i w s e2 h1 h2]; simp [sixEvents]⟩
    | none =>
      cases h3 : env.mkAuroraBrightnessExc i with
      | some e3 =>
        exact Or.inr ⟨2, e3, by omega, by rw [pg_fail3 env p i w s e3 h1 h2 h3]; simp [sixEvents]⟩
      | none =>
        cases h4 : env.bgGraphicExc i with
        | some e4 =>
          exact Or.inr ⟨3, e4, by omega,
            by rw [pg_fail4 env p i w s e4 h1 h2 h3 h4]; simp [sixEvents]⟩
        | none =>
          cases h5 : env.saveResultsExc i with
          | some e5 =>
            exact Or.inr ⟨4, e5, by omega,
              by rw [pg_fail5 env p i w s e5 h1 h2 h3 h4 h5]; simp [sixEvents]⟩
          | none =>
            cases h6 : env.spGraphicExc i with
            | some e6 =>
              exact Or.inr ⟨5, e6, by omega,
                by rw [pg_fail6 env p i w s e6 h1 h2 h3 h4 h5 h6]; simp [sixEvents]⟩
            | none => exact Or.inl (pg_succ env p i w s h1 h2 h3 h4 h5 h6)

/-- The events of any group run are an initial segment of the six-event
list (hence follow the source call order). -/
theorem pg_events_take (env : Env) (p : Params) (i : Nat) (w s : List ℚ) :
    ∃ k, (processGroup env p i w s).events = (sixEvents p i w s).take k := by
  rcases pg_shape env p i w s with h | ⟨k, e, _, h⟩
  · exact ⟨6, by rw [h]; simp [sixEvents]⟩
  · exact ⟨k, by rw [h]⟩

/-- A group that raised nothing produced exactly the six events. -/
theorem pg_events_of_exc_none (env : Env) (p : Params) (i : Nat) (w s : List ℚ)
    (h : (processGroup env p i w s).exc = none) :
    (processGroup env p i w s).events = sixEvents p i w s := by
  rcases pg_shape env p i w s with hs | ⟨k, e, _, hs⟩
  · rw [hs]
  · rw [hs] at h; cases h

/-- Every event of a group run is among the six events of that group. -/
theorem pg_mem_sixEvents (env : Env) (p : Params) (i : Nat) (w s : List ℚ)
    (x : Event) (hx : x ∈ (processGroup env p i w s).events) :
    x ∈ sixEvents p i w s := by
  obtain ⟨k, hk⟩ := pg_events_take env p i w s
  rw [hk] at hx
  exact List.mem_of_mem_take hx

/-- The `try` block itself never prints: the only print of the driver is
the one in the `except` handler. -/
theorem pg_noPrint (env : Env) (p : Params) (i : Nat) (w s : List ℚ) (msg : String) :
    Event.printedLine msg ∉ (processGroup env p i w s).events := by
  intro hmem
  have := pg_mem_sixEvents env p i w s _ hmem
  simp [sixEvents] at this

/-- Any results record a group run persists is the record of that group,
filed under the group wavelength identifier. -/
theorem pg_saved_mem (env : Env) (p : Params) (i : Nat) (w s : List ℚ)
    (ab : AuroraBrightnessV) (k : String)
    (h : Event.savedResults ab k ∈ (processGroup env p i w s).events) :
    ab = abOf p i w s ∧ k = saveKey w := by
  have := pg_mem_sixEvents env p i w s _ h
  simp [sixEvents] at this
  exact ⟨this.1, this.2⟩

/-- Unfolding: the loop on the empty list. -/
theorem runLoop_nil (env : Env) (p : Params) (ls : List (List ℚ)) :
    runLoop env p ls [] = ⟨[], [], none⟩ := rfl

/-- Unfolding: a loop step whose group raised nothing appends the group
events and continues. -/
theorem runLoop_cons_ok (env : Env) (p : Params) (ls : List (List ℚ))
    (i : Nat) (w : List ℚ) (rest : List (Nat × List ℚ))
    (h : (processGroup env p i w (ls.getD i [])).exc = none) :
    runLoop env p ls ((i, w) :: rest) =
      ⟨(processGroup env p i w (ls.getD i [])).events ++ (runLoop env p ls rest).events,
       env.warns i ++ (runLoop env p ls rest).warnsRaised,
       (runLoop env p ls rest).uncaught⟩ := by
  simp only [runLoop]
  rw [h]

/-- Unfolding: a loop step whose group raised a `ValueError` prints the
skip notice and continues with the next group. -/
theorem runLoop_cons_caught (env : Env) (p : Params) (ls : List (List ℚ))
    (i : Nat) (w : List ℚ) (rest : List (Nat × List ℚ)) (e : PyExc)
    (h : (processGroup env p i w (ls.getD i [])).exc = some e)
    (hv : isValueError e = true) :
    runLoop env p ls ((i, w) :: rest) =
      ⟨(processGroup env p i w (ls.getD i [])).events ++
         Event.printedLine (skipMessage w) :: (runLoop env p ls rest).events,
       env.warns i ++ (runLoop env p ls rest).warnsRaised,
       (runLoop env p ls rest).uncaught⟩ := by
  simp only [runLoop]
  rw [h]
  simp [hv]

/-- Unfolding: a loop step whose group raised anything other than a
`ValueError` ends the loop with that exception uncaught. -/
theorem runLoop_cons_abort (env : Env) (p : Params) (ls : List (List ℚ))
    (i : Nat) (w : List ℚ) (rest : List (Nat × List ℚ)) (e : PyExc)
    (h : (processGroup env p i w (ls.getD i [])).exc = some e)
    (hv : isValueError e = false) :
    runLoop env p ls ((i, w) :: rest) =
      ⟨(processGroup env p i w (ls.getD i [])).events, env.warns i, some e⟩ := by
  simp only [runLoop]
  rw [h]
  simp [hv]

/-- The loop only ends with an uncaught exception that is not a
`ValueError`: every `ValueError` is caught by the handler. -/
theorem runLoop_uncaught_not_valueError (env : Env) (p : Params)
    (ls : List (List ℚ)) :
    ∀ (gs : List (Nat × List ℚ)) (e : PyExc),
      (runLoop env p ls gs).uncaught = some e → isValueError e = false := by
  intro gs
  induction gs with
  | nil => intro e h; simp [runLoop_nil] at h
  | cons pr rest ih =>
    obtain ⟨i, w⟩ := pr
    intro e h
    cases hx : (processGroup env p i w (ls.getD i [])).exc with
    | none =>
      rw [runLoop_cons_ok env p ls i w rest hx] at h
      exact ih e h
    | some e2 =>
      cases hv : isValueError e2 with
      | true =>
        rw [runLoop_cons_caught env p ls i w rest e2 hx hv] at h
        exact ih e h
      | false =>
        rw [runLoop_cons_abort env p ls i w rest e2 hx hv] at h
        simp at h
        rw [← h]
        exact hv

/-- Splitting the loop: as long as no group of the first part aborts, the
run of the concatenation is the run of the first part followed by the run
of the second, and the final outcome is that of the second part. -/
theorem runLoop_append (env : Env) (p : Params) (ls : List (List ℚ)) :
    ∀ (gs1 gs2 : List (Nat × List ℚ)),
      (∀ pr ∈ gs1, groupNoAbort env p ls pr) →
      (runLoop env p ls (gs1 ++ gs2)).events
          = (runLoop env p ls gs1).events ++ (runLoop env p ls gs2).events
        ∧ (runLoop env p ls (gs1 ++ gs2)).warnsRaised
          = (runLoop env p ls gs1).warnsRaised ++ (runLoop env p ls gs2).warnsRaised
        ∧ (runLoop env p ls (gs1 ++ gs2)).uncaught = (runLoop env p ls gs2).uncaught := by
  intro gs1
  induction gs1 with
  | nil => intro gs2 _; simp [runLoop_nil]
  | cons pr rest ih =>
    intro gs2 h
    obtain ⟨i, w⟩ := pr
    have hna : ((processGroup env p i w (ls.getD i [])).exc.all isValueError) = true :=
      h (i, w) (by simp)
    have hrest : ∀ pr ∈ rest, groupNoAbort env p ls pr :=
      fun pr hpr => h pr (by simp [hpr])
    obtain ⟨h1, h2, h3⟩ := ih gs2 hrest
    cases hx : (processGroup env p i w (ls.getD i [])).exc with
    | none =>
      rw [List.cons_append, runLoop_cons_ok env p ls i w (rest ++ gs2) hx,
        runLoop_cons_ok env p ls i w rest hx]
      simp [h1, h2, h3]
    | some e =>
      have hv : isValueError e = true := by
        rw [hx] at hna; simpa [Option.all] using hna
      rw [List.cons_append, runLoop_cons_caught env p ls i w (rest ++ gs2) e hx hv,
        runLoop_cons_caught env p ls i w rest e hx hv]
      simp [h1, h2, h3]

/-- When no group aborts, the run is cleanly segmented: its event list is
the concatenation, in list order, of the per-group segments. -/
theorem runLoop_join (env : Env) (p : Params) (ls : List (List ℚ)) :
    ∀ gs : List (Nat × List ℚ),
      (∀ pr ∈ gs, groupNoAbort env p ls pr) →
      (runLoop env p ls gs).events = (gs.map (groupSegment env p ls)).flatten := by
  intro gs
  induction gs with
  | nil => intro _; simp [runLoop_nil]
  | cons pr rest ih =>
    intro h
    obtain ⟨i, w⟩ := pr
    have hna : ((processGroup env p i w (ls.getD i [])).exc.all isValueError) = true :=
      h (i, w) (by simp)
    have hrest : ∀ pr ∈ rest, groupNoAbort env p ls pr :=
      fun pr hpr => h pr (by simp [hpr])
    cases hx : (processGroup env p i w (ls.getD i [])).exc with
    | none =>
      rw [runLoop_cons_ok env p ls i w rest hx]
      simp only [List.map_cons, List.flatten_cons, groupSegment]
      rw [hx, ih hrest]
      simp
    | some e =>
      have hv : isValueError e = true := by
        rw [hx] at hna; simpa [Option.all] using hna
      rw [runLoop_cons_caught env p ls i w rest e hx hv]
      simp only [List.map_cons, List.flatten_cons, groupSegment]
      rw [hx, ih hrest]
      simp [hv]

/-- When no group aborts, the loop finishes with no uncaught exception. -/
theorem runLoop_noAbort_uncaught (env : Env) (p : Params) (ls : List (List ℚ)) :
    ∀ gs : List (Nat × List ℚ),
      (∀ pr ∈ gs, groupNoAbort env p ls pr) →
      (runLoop env p ls gs).uncaught = none := by
  intro gs
  induction gs with
  | nil => intro _; simp [runLoop_nil]
  | cons pr rest ih =>
    intro h
    obtain ⟨i, w⟩ := pr
    have hna : ((processGroup env p i w (ls.getD i [])).exc.all isValueError) = true :=
      h (i, w) (by simp)
    have hrest : ∀ pr ∈ rest, groupNoAbort env p ls pr :=
      fun pr hpr => h pr (by simp [hpr])
    cases hx : (processGroup env p i w (ls.getD i [])).exc with
    | none =>
      rw [runLoop_cons_ok env p ls i w rest hx]
      exact ih hrest
    | some e =>
      have hv : isValueError e = true := by
        rw [hx] at hna; simpa [Option.all] using hna
      rw [runLoop_cons_caught env p ls i w rest e hx hv]
      exact ih hrest

/-- Every event of a loop run stems from some listed group: either from
its `try` block or as its skip notice. -/
theorem runLoop_mem (env : Env) (p : Params) (ls : List (List ℚ)) :
    ∀ (gs : List (Nat × List ℚ)) (x : Event),
      x ∈ (runLoop env p ls gs).events →
      ∃ pr ∈ gs, x ∈ (processGroup env p pr.1 pr.2 (ls.getD pr.1 [])).events
        ∨ x = Event.printedLine (skipMessage pr.2) := by
  intro gs
  induction gs with
  | nil => intro x hx; simp [runLoop_nil] at hx
  | cons pr rest ih =>
    intro x hx
    obtain ⟨i, w⟩ := pr
    cases hexc : (processGroup env p i w (ls.getD i [])).exc with
    | none =>
      rw [runLoop_cons_ok env p ls i w rest hexc] at hx
      rcases List.mem_append.mp hx with hx | hx
      · exact ⟨(i, w), by simp, Or.inl hx⟩
      · obtain ⟨pr2, hpr2, hc⟩ := ih x hx
        exact ⟨pr2, by simp [hpr2], hc⟩
    | some e =>
      cases hv : isValueError e with
      | true =>
        rw [runLoop_cons_caught env p ls i w rest e hexc hv] at hx
        rcases List.mem_append.mp hx with hx | hx
        · exact ⟨(i, w), by simp, Or.inl hx⟩
        · rcases List.mem_cons.mp hx with hx | hx
          · exact ⟨(i, w), by simp, Or.inr hx⟩
          · obtain ⟨pr2, hpr2, hc⟩ := ih x hx
            exact ⟨pr2, by simp [hpr2], hc⟩
      | false =>
        rw [runLoop_cons_abort env p ls i w rest e hexc hv] at hx
        exact ⟨(i, w), by simp, Or.inl hx⟩

/-- When every listed group finishes its block without raising, the
persisted records of the run are exactly one per group, in list order. -/
theorem runLoop_filter_saved (env : Env) (p : Params) (ls : List (List ℚ)) :
    ∀ gs : List (Nat × List ℚ),
      (∀ pr ∈ gs, (processGroup env p pr.1 pr.2 (ls.getD pr.1 [])).exc = none) →
      (runLoop env p ls gs).events.filter isSavedEvent
        = gs.map (fun pr => savedEventOf p pr.1 pr.2 (ls.getD pr.1 [])) := by
  intro gs
  induction gs with
  | nil => intro _; simp [runLoop_nil]
  | cons pr rest ih =>
    intro h
    obtain ⟨i, w⟩ := pr
    have hx : (processGroup env p i w (ls.getD i [])).exc = none := h (i, w) (by simp)
    have hrest : ∀ pr ∈ rest, (processGroup env p pr.1 pr.2 (ls.getD pr.1 [])).exc = none :=
      fun pr hpr => h pr (by simp [hpr])
    rw [runLoop_cons_ok env p ls i w rest hx]
    simp only [List.filter_append, List.map_cons]
    rw [pg_events_of_exc_none env p i w (ls.getD i []) hx, ih hrest]
    simp [sixEvents, isSavedEvent, savedEventOf]

/-- When every listed group finishes its block without raising, the
rendering events of the run are exactly the two per group, in call
order. -/
theorem runLoop_filter_render (env : Env) (p : Params) (ls : List (List ℚ)) :
    ∀ gs : List (Nat × List ℚ),
      (∀ pr ∈ gs, (processGroup env p pr.1 pr.2 (ls.getD pr.1 [])).exc = none) →
      (runLoop env p ls gs).events.filter isRenderEvent
        = (gs.map (fun pr => renderEventsOf p pr.1 pr.2 (ls.getD pr.1 []))).flatten := by
  intro gs
  induction gs with
  | nil => intro _; simp [runLoop_nil]
  | cons pr rest ih =>
    intro h
    obtain ⟨i, w⟩ := pr
    have hx : (processGroup env p i w (ls.getD i [])).exc = none := h (i, w) (by simp)
    have hrest : ∀ pr ∈ rest, (processGroup env p pr.1 pr.2 (ls.getD pr.1 [])).exc = none :=
      fun pr hpr => h pr (by simp [hpr])
    rw [runLoop_cons_ok env p ls i w rest hx]
    simp only [List.filter_append, List.map_cons, List.flatten_cons]
    rw [pg_events_of_exc_none env p i w (ls.getD i []) hx, ih hrest]
    simp [sixEvents, isRenderEvent, renderEventsOf]

/-- Projection: the events of a run are the events of the loop over the
enumerated wavelength table. -/
theorem ga_events (env : Env) (p : Params) :
    (get_aurora_brightnesses env p).events
      = (runLoop env p (strengthTable env p) ((wavelengthTable env p).enum)).events := rfl

/-- Projection: the uncaught exception of a run is that of the loop. -/
theorem ga_uncaught (env : Env) (p : Params) :
    (get_aurora_brightnesses env p).uncaught
      = (runLoop env p (strengthTable env p) ((wavelengthTable env p).enum)).uncaught := rfl

/-- Projection: the shown warnings of a run pass through the ignore-all
filter. -/
theorem ga_shownWarnings (env : Env) (p : Params) :
    (get_aurora_brightnesses env p).shownWarnings = [] := rfl

/-- Projection: the run returns `None` exactly when no exception escaped
the loop. -/
theorem ga_retval (env : Env) (p : Params) :
    (get_aurora_brightnesses env p).retval
      = match (runLoop env p (strengthTable env p)
          ((wavelengthTable env p).enum)).uncaught with
        | none => some ()
        | some _ => none := rfl

/-- Rounding an integer leaves it unchanged. -/
theorem roundHalfEven_intCast (n : ℤ) : roundHalfEven (n : ℚ) = n := by
  simp [roundHalfEven]

/-- Evaluating the one-decimal format on a value that is an exact number
of tenths. -/
theorem fmt1_tenths (n : ℤ) (q : ℚ) (h : q * 10 = (n : ℚ)) :
    fmt1 q = tenthsToString n := by
  rw [fmt1, h, roundHalfEven_intCast]

/-- The skip notice of the 630.0 nm test group. -/
theorem skipMessage_630 :
    skipMessage [(6300 : ℚ) / 10] = "630.0 not found! Skipping..." := by
  rw [skipMessage, fmt1_tenths 6300 _ (by norm_num [qmean])]
  decide

/-- C9: for every invocation, the whole per-group loop runs inside the
`warnings.catch_warnings()` context that installs the ignore-all filter
(`simplefilter("ignore")`, lines 67 to 68), so whatever warnings the
processing of any wavelength group raises, none is ever shown to the
user. -/
theorem c9_warnings_suppressed (env : Env) (p : Params) :
    (get_aurora_brightnesses env p).shownWarnings = []
    ∧ (∀ raised : List String, runWithWarningsFilter true raised = []) :=
  ⟨rfl, fun _ => rfl⟩

/-- C10: `get_aurora_brightnesses` has no return statement, so whenever it
returns — however many groups succeeded or were skipped, including when
every group was skipped — it returns `None`, and the caller gets no
programmatic success or failure signal beyond the printed text and the
files written; the only way it does not return `None` is when a
non-`ValueError` exception escapes. -/
theorem c10_returns_none (env : Env) (p : Params) :
    ((get_aurora_brightnesses env p).uncaught = none
      ∧ (get_aurora_brightnesses env p).retval = some ())
    ∨ (∃ e : PyExc, (get_aurora_brightnesses env p).uncaught = some e
        ∧ isValueError e = false
        ∧ (get_aurora_brightnesses env p).retval = none) := by
  cases h : (runLoop env p (strengthTable env p) ((wavelengthTable env p).enum)).uncaught with
  | none =>
    exact Or.inl ⟨by rw [ga_uncaught, h], by rw [ga_retval, h]⟩
  | some e =>
    exact Or.inr ⟨e, by rw [ga_uncaught, h],
      runLoop_uncaught_not_valueError env p _ _ e h,
      by rw [ga_retval, h]⟩

/-- C5: the entry point accepts exactly the eight parameters of the source
signature with the source defaults — seeing 1, no exclusions, y-offset 0,
top and bottom trim 2 each, extended-line flag off — and nothing else: two
`Params` values agreeing on these eight fields are equal, so no parameter
exists for the aggregation statistic or the brightness unit. -/
theorem c5_entry_point_surface :
    (∀ r s : String,
      ({ reduced_data_path := r, save_path := s } : Params).seeing = 1
      ∧ ({ reduced_data_path := r, save_path := s } : Params).exclude = none
      ∧ ({ reduced_data_path := r, save_path := s } : Params).y_offset = 0
      ∧ ({ reduced_data_path := r, save_path := s } : Params).top_trim = 2
      ∧ ({ reduced_data_path := r, save_path := s } : Params).bottom_trim = 2
      ∧ ({ reduced_data_path := r, save_path := s } : Params).additional_wavelengths = false)
    ∧ (∀ p q : Params,
        p.reduced_data_path = q.reduced_data_path → p.save_path = q.save_path →
        p.seeing = q.seeing → p.exclude = q.exclude → p.y_offset = q.y_offset →
        p.top_trim = q.top_trim → p.bottom_trim = q.bottom_trim →
        p.additional_wavelengths = q.additional_wavelengths → p = q) := by
  constructor
  · intro r s
    exact ⟨rfl, rfl, rfl, rfl, rfl, rfl⟩
  · intro p q h1 h2 h3 h4 h5 h6 h7 h8
    cases p
    cases q
    simp_all

/-- Witness for C5 at concrete inputs. -/
theorem c5_entry_point_surface_witness :
    (({ reduced_data_path := "r", save_path := "s" } : Params).seeing = 1
      ∧ ({ reduced_data_path := "r", save_path := "s" } : Params).exclude = none
      ∧ ({ reduced_data_path := "r", save_path := "s" } : Params).y_offset = 0
      ∧ ({ reduced_data_path := "r", save_path := "s" } : Params).top_trim = 2
      ∧ ({ reduced_data_path := "r", save_path := "s" } : Params).bottom_trim = 2
      ∧ ({ reduced_data_path := "r", save_path := "s" } : Params).additional_wavelengths = false)
    ∧ pDef = pDef :=
  ⟨c5_entry_point_surface.1 "r" "s",
   c5_entry_point_surface.2 pDef pDef rfl rfl rfl rfl rfl rfl rfl rfl⟩

/-- C3: when the exclusion set names every frame of a group, the
aggregation step raises the distinct `DegenerateAggregate` condition — it
never returns a value (so no silent zero, `NaN` or empty mean), and the
condition is not a `ValueError`, so the driver does not turn it into the
line-not-found skip: it propagates to the caller, observably different
from the skip. -/
theorem c3_degenerate_aggregate (perFrame : List ℚ) (excluded : List Nat)
    (h : ∀ j < perFrame.length, j ∈ excluded) :
    aggregateBrightness perFrame excluded = Except.error PyExc.degenerateAggregate
    ∧ (∀ q : ℚ, aggregateBrightness perFrame excluded ≠ Except.ok q)
    ∧ isValueError PyExc.degenerateAggregate = false
    ∧ (∀ b : Bool, PyExc.degenerateAggregate ≠ PyExc.valueError b) := by
  have hincl : (List.range perFrame.length).filter (fun j => ! excluded.contains j) = [] := by
    rw [List.filter_eq_nil_iff]
    intro a ha
    rw [List.mem_range] at ha
    simp only [Bool.not_eq_true', Bool.not_eq_false]
    exact List.elem_eq_true_of_mem (h a ha)
  have hmain : aggregateBrightness perFrame excluded
      = Except.error PyExc.degenerateAggregate := by
    unfold aggregateBrightness
    rw [hincl]
    simp
  refine ⟨hmain, fun q hq => ?_, rfl, fun b hb => by cases hb⟩
  rw [hmain] at hq
  cases hq

/-- Witness for C3: a two-frame group with both frames excluded. -/
theorem c3_degenerate_aggregate_witness :
    (∀ j < (2 : Nat), j ∈ [0, 1])
    ∧ aggregateBrightness [1, 2] [0, 1] = Except.error PyExc.degenerateAggregate :=
  ⟨by decide, (c3_degenerate_aggregate [1, 2] [0, 1] (by decide)).1⟩

/-- C6: wavelength groups are processed strictly sequentially in the fixed
order of the emission-line wavelength list — when no group aborts, the run
event list is the concatenation, in list order, of the per-group segments,
so no group starts before the previous group completed or was skipped —
and inside each group control flows through the dependency chain: the
group events are always an initial segment of the six-event source order,
in which the `Background` is built from the group `OrderData` and the
`AuroraBrightness` from that `OrderData` and that `Background`. -/
theorem c6_sequential_chain (env : Env) (p : Params)
    (h : ∀ pr ∈ (wavelengthTable env p).enum,
        groupNoAbort env p (strengthTable env p) pr) :
    (get_aurora_brightnesses env p).events
      = (((wavelengthTable env p).enum).map
          (groupSegment env p (strengthTable env p))).flatten
    ∧ (∀ pr ∈ (wavelengthTable env p).enum, ∃ k,
        (processGroup env p pr.1 pr.2 ((strengthTable env p).getD pr.1 [])).events
          = (sixEvents p pr.1 pr.2 ((strengthTable env p).getD pr.1 [])).take k)
    ∧ (∀ (i : Nat) (w s : List ℚ),
        (bgOf p i w s).order_data = odOf p i w s
        ∧ (abOf p i w s).order_data = odOf p i w s
        ∧ (abOf p i w s).background = bgOf p i w s) := by
  refine ⟨?_, fun pr _ => pg_events_take env p pr.1 pr.2 _,
    fun i w s => ⟨rfl, rfl, rfl⟩⟩
  rw [ga_events]
  exact runLoop_join env p _ _ h

/-- Witness for C6 at the all-success two-group environment. -/
theorem c6_sequential_chain_witness :
    (∀ pr ∈ (wavelengthTable envOk pDef).enum,
        groupNoAbort envOk pDef (strengthTable envOk pDef) pr)
    ∧ (get_aurora_brightnesses envOk pDef).events
        = (((wavelengthTable envOk pDef).enum).map
            (groupSegment envOk pDef (strengthTable envOk pDef))).flatten :=
  ⟨by decide, (c6_sequential_chain envOk pDef (by decide)).1⟩

/-- C4: for every run in which all groups are processed without failure,
the driver persists exactly one results record per wavelength group — the
persisted records of the run are precisely the per-group list, in order —
and every record is filed under the wavelength identifier of its own group
(the mean wavelength rounded to one decimal), so records of groups with
distinct identifiers live under distinct keys and do not overwrite each
other. -/
theorem c4_one_record_per_group (env : Env) (p : Params)
    (h : ∀ pr ∈ (wavelengthTable env p).enum,
        (processGroup env p pr.1 pr.2 ((strengthTable env p).getD pr.1 [])).exc = none) :
    (get_aurora_brightnesses env p).events.filter isSavedEvent
      = ((wavelengthTable env p).enum).map
          (fun pr => savedEventOf p pr.1 pr.2 ((strengthTable env p).getD pr.1 []))
    ∧ (∀ (ab : AuroraBrightnessV) (k : String),
        Event.savedResults ab k ∈ (get_aurora_brightnesses env p).events →
        k = saveKey ab.order_data.wavelengths)
    ∧ (∀ (i : Nat) (w s : List ℚ),
        savedEventOf p i w s = Event.savedResults (abOf p i w s) (saveKey w)) := by
  refine ⟨?_, ?_, fun i w s => rfl⟩
  · rw [ga_events]
    exact runLoop_filter_saved env p _ _ h
  · intro ab k hmem
    rw [ga_events] at hmem
    obtain ⟨pr, _, hc⟩ := runLoop_mem env p _ _ _ hmem
    rcases hc with hc | hc
    · obtain ⟨hab, hk⟩ := pg_saved_mem env p pr.1 pr.2 _ ab k hc
      rw [hk, hab]
      rfl
    · cases hc

/-- Witness for C4 at the all-success two-group environment. -/
theorem c4_one_record_per_group_witness :
    (∀ pr ∈ (wavelengthTable envOk pDef).enum,
        (processGroup envOk pDef pr.1 pr.2
          ((strengthTable envOk pDef).getD pr.1 [])).exc = none)
    ∧ (get_aurora_brightnesses envOk pDef).events.filter isSavedEvent
        = ((wavelengthTable envOk pDef).enum).map
            (fun pr => savedEventOf pDef pr.1 pr.2 ((strengthTable envOk pDef).getD pr.1 [])) :=
  ⟨by decide, (c4_one_record_per_group envOk pDef (by decide)).1⟩

/-- C7: for every run in which all groups are processed without failure,
the rendering events are exactly two per group — the background-subtraction
geometry graphic for the group `OrderData` and `Background` pair, then the
1-D spectrum graphic for the group `OrderData` — and the group event list
equals the six-event source order, in which both renderings come only
after the state they consume was constructed; both rendering events carry
the save path as their output location. -/
theorem c7_two_renders_per_group (env : Env) (p : Params)
    (h : ∀ pr ∈ (wavelengthTable env p).enum,
        (processGroup env p pr.1 pr.2 ((strengthTable env p).getD pr.1 [])).exc = none) :
    (get_aurora_brightnesses env p).events.filter isRenderEvent
      = (((wavelengthTable env p).enum).map
          (fun pr => renderEventsOf p pr.1 pr.2 ((strengthTable env p).getD pr.1 []))).flatten
    ∧ (∀ pr ∈ (wavelengthTable env p).enum,
        (processGroup env p pr.1 pr.2 ((strengthTable env p).getD pr.1 [])).events
          = sixEvents p pr.1 pr.2 ((strengthTable env p).getD pr.1 []))
    ∧ (∀ (i : Nat) (w s : List ℚ),
        renderEventsOf p i w s
          = [Event.renderedBackgroundGraphic (odOf p i w s) (bgOf p i w s)
               p.save_path p.y_offset,
             Event.renderedSpectrumGraphic p.save_path (odOf p i w s)]) := by
  refine ⟨?_, fun pr hpr => pg_events_of_exc_none env p pr.1 pr.2 _ (h pr hpr),
    fun i w s => rfl⟩
  rw [ga_events]
  exact runLoop_filter_render env p _ _ h

/-- Witness for C7 at the all-success two-group environment. -/
theorem c7_two_renders_per_group_witness :
    (∀ pr ∈ (wavelengthTable envOk pDef).enum,
        (processGroup envOk pDef pr.1 pr.2
          ((strengthTable envOk pDef).getD pr.1 [])).exc = none)
    ∧ (get_aurora_brightnesses envOk pDef).events.filter isRenderEvent
        = (((wavelengthTable envOk pDef).enum).map
            (fun pr => renderEventsOf pDef pr.1 pr.2
              ((strengthTable envOk pDef).getD pr.1 []))).flatten :=
  ⟨by decide, (c7_two_renders_per_group envOk pDef (by decide)).1⟩

/-- C2: when the wavelength-not-found condition is raised while a group is
processed (and the run reaches that group), the driver prints exactly one
notice — the group mean wavelength formatted to one decimal place followed
by the not-found message — produces no other error report for the group
(its block emits no print at all), and then processes all subsequent
groups exactly as it would have anyway: the rest of the run is the run of
the remaining groups, with its outcome. -/
theorem c2_line_not_found_skip (env : Env) (p : Params)
    (gs1 : List (Nat × List ℚ)) (i : Nat) (w : List ℚ) (gs2 : List (Nat × List ℚ))
    (hsplit : (wavelengthTable env p).enum = gs1 ++ (i, w) :: gs2)
    (hpre : ∀ pr ∈ gs1, groupNoAbort env p (strengthTable env p) pr)
    (hexc : (processGroup env p i w ((strengthTable env p).getD i [])).exc
        = some (PyExc.valueError true)) :
    (get_aurora_brightnesses env p).events
      = (runLoop env p (strengthTable env p) gs1).events
        ++ (processGroup env p i w ((strengthTable env p).getD i [])).events
        ++ Event.printedLine (skipMessage w)
          :: (runLoop env p (strengthTable env p) gs2).events
    ∧ skipMessage w = fmt1 (qmean w) ++ " not found! Skipping..."
    ∧ (∀ msg : String, Event.printedLine msg
        ∉ (processGroup env p i w ((strengthTable env p).getD i [])).events)
    ∧ (get_aurora_brightnesses env p).uncaught
        = (runLoop env p (strengthTable env p) gs2).uncaught := by
  have h1 := runLoop_append env p (strengthTable env p) gs1 ((i, w) :: gs2) hpre
  have h2 := runLoop_cons_caught env p (strengthTable env p) i w gs2
    (PyExc.valueError true) hexc rfl
  refine ⟨?_, rfl, fun msg => pg_noPrint env p i w _ msg, ?_⟩
  · rw [ga_events, hsplit, h1.1, h2]
    simp [List.append_assoc]
  · rw [ga_uncaught, hsplit, h1.2.2, h2]

/-- Witness for C2: the 630.0 nm group raises the wavelength-not-found
condition, the 777.4 nm group follows. -/
theorem c2_line_not_found_skip_witness :
    ((wavelengthTable envLnf pDef).enum
        = [] ++ (0, [(6300 : ℚ) / 10]) :: [(1, [(7774 : ℚ) / 10])])
    ∧ (processGroup envLnf pDef 0 [(6300 : ℚ) / 10]
        ((strengthTable envLnf pDef).getD 0 [])).exc = some (PyExc.valueError true)
    ∧ (get_aurora_brightnesses envLnf pDef).uncaught
        = (runLoop envLnf pDef (strengthTable envLnf pDef) [(1, [(7774 : ℚ) / 10])]).uncaught :=
  ⟨rfl, by decide,
    (c2_line_not_found_skip envLnf pDef [] 0 [(6300 : ℚ) / 10] [(1, [(7774 : ℚ) / 10])]
      rfl (by decide) (by decide)).2.2.2⟩

/-- C1 as stated is false: the handler at line 92 catches by exception
class (`except ValueError`), not by failure kind, so a `ValueError` raised
by any of the six call sites of the block — here by `save_results`, and
one that is not the wavelength-not-found condition — is also converted to
the skip-and-continue with the misleading not-found notice instead of
propagating and aborting the run. -/
theorem c1_claim_counterexample :
    envSaveVE.saveResultsExc 0 = some (PyExc.valueError false)
    ∧ PyExc.valueError false ≠ PyExc.valueError true
    ∧ (get_aurora_brightnesses envSaveVE pDef).uncaught = none
    ∧ (get_aurora_brightnesses envSaveVE pDef).retval = some ()
    ∧ Event.printedLine "630.0 not found! Skipping..."
        ∈ (get_aurora_brightnesses envSaveVE pDef).events := by
  refine ⟨rfl, by decide, by decide, by decide, ?_⟩
  have henum : (wavelengthTable envSaveVE pDef).enum
      = (0, [(6300 : ℚ) / 10]) :: [(1, [(7774 : ℚ) / 10])] := rfl
  rw [ga_events, henum,
    runLoop_cons_caught envSaveVE pDef (strengthTable envSaveVE pDef) 0
      [(6300 : ℚ) / 10] [(1, [(7774 : ℚ) / 10])] (PyExc.valueError false)
      (by decide) rfl]
  simp [skipMessage_630]

/-- C1 amended: the driver converts to a skip-and-continue exactly the
exceptions of class `ValueError` raised anywhere in the per-group block —
whichever call site raised them and whether or not they are the
wavelength-not-found condition — and any exception that is not a
`ValueError` propagates out of the function and aborts the run. -/
theorem c1_only_valueError_caught (env : Env) (p : Params) :
    (∀ e : PyExc, (get_aurora_brightnesses env p).uncaught = some e →
      isValueError e = false)
    ∧ (∀ (gs1 : List (Nat × List ℚ)) (i : Nat) (w : List ℚ)
        (gs2 : List (Nat × List ℚ)) (e : PyExc),
        (wavelengthTable env p).enum = gs1 ++ (i, w) :: gs2 →
        (∀ pr ∈ gs1, groupNoAbort env p (strengthTable env p) pr) →
        (processGroup env p i w ((strengthTable env p).getD i [])).exc = some e →
        (isValueError e = true →
          Event.printedLine (skipMessage w) ∈ (get_aurora_brightnesses env p).events
          ∧ (get_aurora_brightnesses env p).uncaught
              = (runLoop env p (strengthTable env p) gs2).uncaught)
        ∧ (isValueError e = false →
            (get_aurora_brightnesses env p).uncaught = some e)) := by
  constructor
  · intro e h
    rw [ga_uncaught] at h
    exact runLoop_uncaught_not_valueError env p _ _ e h
  · intro gs1 i w gs2 e hsplit hpre hexc
    have h1 := runLoop_append env p (strengthTable env p) gs1 ((i, w) :: gs2) hpre
    constructor
    · intro hv
      have h2 := runLoop_cons_caught env p (strengthTable env p) i w gs2 e hexc hv
      constructor
      · rw [ga_events, hsplit, h1.1, h2]
        simp
      · rw [ga_uncaught, hsplit, h1.2.2, h2]
    · intro hv
      have h2 := runLoop_cons_abort env p (strengthTable env p) i w gs2 e hexc hv
      rw [ga_uncaught, hsplit, h1.2.2, h2]

/-- Witness for the amended C1: a plain `ValueError` from `save_results`
of the first group is caught and skipped; the run outcome is that of the
remaining group. -/
theorem c1_only_valueError_caught_witness :
    ((wavelengthTable envSaveVE pDef).enum
        = [] ++ (0, [(6300 : ℚ) / 10]) :: [(1, [(7774 : ℚ) / 10])])
    ∧ (processGroup envSaveVE pDef 0 [(6300 : ℚ) / 10]
        ((strengthTable envSaveVE pDef).getD 0 [])).exc = some (PyExc.valueError false)
    ∧ Event.printedLine (skipMessage [(6300 : ℚ) / 10])
        ∈ (get_aurora_brightnesses envSaveVE pDef).events :=
  ⟨rfl, by decide,
    (((c1_only_valueError_caught envSaveVE pDef).2 [] 0 [(6300 : ℚ) / 10]
      [(1, [(7774 : ℚ) / 10])] (PyExc.valueError false)
      rfl (by decide) (by decide)).1 rfl).1⟩

/-- C8: within a group, `save_results` runs only after the
background-subtraction graphic call returned (any block that persisted a
record ran at least the first five calls, with the graphic in fourth
place), and the spectrum graphic runs only after `save_results` returned
(it only appears in a block that ran all six calls); consequently, when
the background-subtraction graphic raises a `ValueError`, the group ends
with exactly the three construction events — the brightness was computed
but never persisted — and the run reports the group with the not-found
notice and moves on. -/
theorem c8_save_between_graphics (env : Env) (p : Params)
    (gs1 : List (Nat × List ℚ)) (i : Nat) (w : List ℚ) (gs2 : List (Nat × List ℚ))
    (b : Bool)
    (hsplit : (wavelengthTable env p).enum = gs1 ++ (i, w) :: gs2)
    (hpre : ∀ pr ∈ gs1, groupNoAbort env p (strengthTable env p) pr)
    (h1 : env.mkOrderDataExc i = none) (h2 : env.mkBackgroundExc i = none)
    (h3 : env.mkAuroraBrightnessExc i = none)
    (h4 : env.bgGraphicExc i = some (PyExc.valueError b)) :
    (processGroup env p i w ((strengthTable env p).getD i [])).exc
      = some (PyExc.valueError b)
    ∧ (processGroup env p i w ((strengthTable env p).getD i [])).events
      = [Event.constructedOrderData (odOf p i w ((strengthTable env p).getD i [])),
         Event.constructedBackground (bgOf p i w ((strengthTable env p).getD i [])),
         Event.constructedAuroraBrightness (abOf p i w ((strengthTable env p).getD i []))]
    ∧ (∀ (ab : AuroraBrightnessV) (k : String),
        Event.savedResults ab k
          ∉ (processGroup env p i w ((strengthTable env p).getD i [])).events)
    ∧ (get_aurora_brightnesses env p).events
        = (runLoop env p (strengthTable env p) gs1).events
          ++ (processGroup env p i w ((strengthTable env p).getD i [])).events
          ++ Event.printedLine (skipMessage w)
            :: (runLoop env p (strengthTable env p) gs2).events
    ∧ (∀ (env2 : Env) (ab : AuroraBrightnessV) (k : String),
        Event.savedResults ab k
            ∈ (processGroup env2 p i w ((strengthTable env p).getD i [])).events →
        (processGroup env2 p i w ((strengthTable env p).getD i [])).events
            = (sixEvents p i w ((strengthTable env p).getD i [])).take 5
          ∨ (processGroup env2 p i w ((strengthTable env p).getD i [])).events
            = sixEvents p i w ((strengthTable env p).getD i []))
    ∧ (∀ env2 : Env,
        Event.renderedSpectrumGraphic p.save_path
            (odOf p i w ((strengthTable env p).getD i []))
            ∈ (processGroup env2 p i w ((strengthTable env p).getD i [])).events →
        (processGroup env2 p i w ((strengthTable env p).getD i [])).events
          = sixEvents p i w ((strengthTable env p).getD i [])) := by
  have hC := pg_fail4 env p i w ((strengthTable env p).getD i [])
    (PyExc.valueError b) h1 h2 h3 h4
  have hexc : (processGroup env p i w ((strengthTable env p).getD i [])).exc
      = some (PyExc.valueError b) := by rw [hC]
  refine ⟨hexc, by rw [hC], ?_, ?_, ?_, ?_⟩
  · intro ab k hmem
    rw [hC] at hmem
    simp at hmem
  · have hap := runLoop_append env p (strengthTable env p) gs1 ((i, w) :: gs2) hpre
    have hc2 := runLoop_cons_caught env p (strengthTable env p) i w gs2
      (PyExc.valueError b) hexc rfl
    rw [ga_events, hsplit, hap.1, hc2]
    simp [List.append_assoc]
  · intro env2 ab k hmem
    rcases pg_shape env2 p i w ((strengthTable env p).getD i []) with hs | ⟨kk, e, hkk, hs⟩
    · right
      rw [hs]
    · rw [hs] at hmem ⊢
      interval_cases kk
      · exfalso; simp [sixEvents] at hmem
      · exfalso; simp [sixEvents] at hmem
      · exfalso; simp [sixEvents] at hmem
      · exfalso; simp [sixEvents] at hmem
      · exfalso; simp [sixEvents] at hmem
      · exact Or.inl rfl
  · intro env2 hmem
    rcases pg_shape env2 p i w ((strengthTable env p).getD i []) with hs | ⟨kk, e, hkk, hs⟩
    · rw [hs]
    · exfalso
      rw [hs] at hmem
      interval_cases kk <;> simp [sixEvents] at hmem

/-- Witness for C8: the background-subtraction graphic of the 630.0 nm
group raises a plain `ValueError`. -/
theorem c8_save_between_graphics_witness :
    ((wavelengthTable envBgVE pDef).enum
        = [] ++ (0, [(6300 : ℚ) / 10]) :: [(1, [(7774 : ℚ) / 10])])
    ∧ envBgVE.bgGraphicExc 0 = some (PyExc.valueError false)
    ∧ (processGroup envBgVE pDef 0 [(6300 : ℚ) / 10]
        ((strengthTable envBgVE pDef).getD 0 [])).exc = some (PyExc.valueError false) :=
  ⟨rfl, rfl,
    (c8_save_between_graphics envBgVE pDef [] 0 [(6300 : ℚ) / 10]
      [(1, [(7774 : ℚ) / 10])] false rfl (by decide) rfl rfl rfl rfl).1⟩

end KhanProcessing
